import Mathlib

/-!
# Verification of the cChange climate-visualization core

Shallow embedding of the data-to-geometry pipeline of the cChange
repository (`cChange.ts`, `src/workers/ClimateDataWorkerManager.ts`,
the climate-data worker) and proofs of the spec's claims about it.

Numbers are modelled as exact rationals (`ℚ`); JavaScript `undefined`
arising from out-of-bounds array reads is modelled by `List.get?`
returning `none`.  Marker positions on the sphere (sine/cosine
projection in `addCoord`) are pure functions of the stored
latitude/longitude and are not re-computed here, since no stated
property concerns them.
-/

namespace CChange

/-- `ClimateDataPoint` from `types.ts`: one decoded anomaly triple. -/
structure ClimateDataPoint where
  lat : ℚ
  lon : ℚ
  delta : ℚ
deriving DecidableEq, Repr

/-- The fixed decade list `years` from `cChange.ts`. -/
def years : List String :=
  ["1910", "1920", "1930", "1940", "1980", "1990", "2000", "2010"]

/-!
## AnomalyRecord parser (`centuryData` loop, `cChange.ts` lines 247-263)

The source walks the flat array in steps of 3 starting at index 0 and
skips a step whenever any of the three reads is `undefined`
(out of bounds).  `parseFrom samples i` embeds the loop from index `i`.
-/

/-- The triple-decoding loop of `centuryData`: from index `i`, read
`samples[i]`, `samples[i+1]`, `samples[i+2]`; skip the step when a read
is out of bounds, otherwise emit a point; advance by 3. -/
def parseFrom (samples : List ℚ) (i : Nat) : List ClimateDataPoint :=
  if _h : i < samples.length then
    match samples.get? i, samples.get? (i + 1), samples.get? (i + 2) with
    | some lat, some lon, some delta =>
        { lat := lat, lon := lon, delta := delta } :: parseFrom samples (i + 3)
    | _, _, _ => parseFrom samples (i + 3)
  else []
termination_by samples.length - i
decreasing_by all_goals (simp_wf; omega)

/-- Worker-side parsing loop (`climateDataWorker`, `processClimateData`):
same walk as `parseFrom`, but additionally skips points whose `delta`
is zero ("Skip zero temperature anomalies for performance"). -/
def processClimateDataFrom (yearData : List ℚ) (i : Nat) : List ClimateDataPoint :=
  if _h : i < yearData.length then
    match yearData.get? i, yearData.get? (i + 1), yearData.get? (i + 2) with
    | some lat, some lon, some delta =>
        if delta = 0 then processClimateDataFrom yearData (i + 3)
        else { lat := lat, lon := lon, delta := delta } ::
          processClimateDataFrom yearData (i + 3)
    | _, _, _ => processClimateDataFrom yearData (i + 3)
  else []
termination_by yearData.length - i
decreasing_by all_goals (simp_wf; omega)

/-- `processClimateData(yearData, _year)` of the worker: the `_year`
argument is unused in processing. -/
def processClimateData (yearData : List ℚ) (_year : String) : List ClimateDataPoint :=
  processClimateDataFrom yearData 0

/-!
## Color/scale mapper (`colorVal`, `cChange.ts` lines 842-858; scale rule
from `addCoord` line 886)
-/

/-- A color as produced by `colorVal`: either set via `setHSL` or via
`setRGB`. -/
inductive ColorSpec where
  | hsl (h s l : ℚ)
  | rgb (r g b : ℚ)
deriving DecidableEq, Repr

/-- `colorVal(x)`: warm HSL ramp for positive anomalies, cool HSL ramp
for negative ones, pure white RGB for zero. -/
def colorVal (x : ℚ) : ColorSpec :=
  if x > 0 then ColorSpec.hsl (2139 / 10000 - x / (1619 / 1000) * (1 / 2)) 1 (1 / 2)
  else if x < 0 then ColorSpec.hsl (5111 / 10000 - x / (1619 / 1000)) 1 (3 / 5)
  else ColorSpec.rgb 1 1 1

/-- `mesh.scale.y = Math.max(Math.abs(delta) * 150, 0.1)` from `addCoord`. -/
def heightScale (delta : ℚ) : ℚ :=
  max (|delta| * 150) (1 / 10)

/-!
## Worker statistics (`climateDataWorker`, `calculateStatistics`)
-/

/-- The statistics record returned by the worker. -/
structure Stats where
  count : Nat
  minDelta : ℚ
  maxDelta : ℚ
  avgDelta : ℚ
  nonZeroCount : Nat
deriving DecidableEq, Repr

/-- `calculateStatistics(data)`: single-pass accumulation with `minDelta`
and `maxDelta` seeded from `data[0]`; empty input yields all-zero stats. -/
def calculateStatistics (data : List ClimateDataPoint) : Stats :=
  match data with
  | [] => { count := 0, minDelta := 0, maxDelta := 0, avgDelta := 0, nonZeroCount := 0 }
  | d0 :: _ =>
      let acc := data.foldl
        (fun (acc : ℚ × ℚ × ℚ × Nat) point =>
          (if point.delta < acc.1 then point.delta else acc.1,
           if acc.2.1 < point.delta then point.delta else acc.2.1,
           acc.2.2.1 + point.delta,
           if point.delta ≠ 0 then acc.2.2.2 + 1 else acc.2.2.2))
        (d0.delta, d0.delta, 0, 0)
      { count := data.length
        minDelta := acc.1
        maxDelta := acc.2.1
        avgDelta := acc.2.2.1 / (data.length : ℚ)
        nonZeroCount := acc.2.2.2 }

/-!
## Worker manager (`ClimateDataWorkerManager.ts`)

The two pending-request maps are modelled by the lists of their keys;
each key stands for the stored `resolve`/`reject` pair of its promise.
Calls made to `resolve`/`reject` are recorded as `SettleEvent`s in the
second component of each handler's result.
-/

/-- A settlement of a pending request's promise. -/
inductive SettleEvent where
  | resolved (requestId : String)
  | rejected (requestId : String) (message : String)
deriving DecidableEq, Repr

/-- A `WorkerMessage` as received by `handleWorkerMessage`:
`{ type, requestId, data?, stats?, error? }`. -/
structure WorkerResponse where
  type : String
  requestId : String
  data : Option (List ClimateDataPoint)
  stats : Option Stats
  error : Option String
deriving DecidableEq, Repr

/-- The manager's two pending-request maps (`processingRequests` and
`statisticsRequests`), by key. -/
structure ManagerState where
  processingRequests : List String
  statisticsRequests : List String
deriving DecidableEq, Repr

/-- `handleWorkerMessage(event)`, translated line by line.  The entry is
first looked up in either map; unknown ids are warned about and ignored.
Then the id is deleted from both maps, and — exactly as in the source —
the success branches re-`get` the entry from the (already cleaned) map
before resolving or rejecting it. -/
def handleWorkerMessage (st : ManagerState) (msg : WorkerResponse) :
    ManagerState × List SettleEvent :=
  if msg.requestId ∈ st.processingRequests ∨ msg.requestId ∈ st.statisticsRequests then
    -- Remove from both maps (only one will have the entry)
    let st1 : ManagerState :=
      { processingRequests := st.processingRequests.erase msg.requestId
        statisticsRequests := st.statisticsRequests.erase msg.requestId }
    if msg.type = "CLIMATE_DATA_PROCESSED" then
      if msg.requestId ∈ st1.processingRequests then
        if msg.data.isSome ∧ msg.stats.isSome then
          (st1, [SettleEvent.resolved msg.requestId])
        else (st1, [SettleEvent.rejected msg.requestId "Invalid climate data response"])
      else (st1, [])
    else if msg.type = "STATISTICS_CALCULATED" then
      if msg.requestId ∈ st1.statisticsRequests then
        if msg.stats.isSome then (st1, [SettleEvent.resolved msg.requestId])
        else (st1, [SettleEvent.rejected msg.requestId "Invalid statistics response"])
      else (st1, [])
    else if msg.type = "ERROR" then
      (st1, [SettleEvent.rejected msg.requestId (msg.error.getD "Worker error")])
    else
      (st1, [SettleEvent.rejected msg.requestId ("Unknown response type: " ++ msg.type)])
  else
    (st, [])  -- console.warn('Received message for unknown request')

/-- `handleWorkerError(error)`: reject every pending request in both maps
and clear them. -/
def handleWorkerError (st : ManagerState) (message : String) :
    ManagerState × List SettleEvent :=
  (⟨[], []⟩,
    st.processingRequests.map
      (fun rid => SettleEvent.rejected rid ("Worker error: " ++ message)) ++
    st.statisticsRequests.map
      (fun rid => SettleEvent.rejected rid ("Worker error: " ++ message)))

/-- `terminate()`: tear down the worker, reject every pending request in
both maps and clear them. -/
def terminate (st : ManagerState) : ManagerState × List SettleEvent :=
  (⟨[], []⟩,
    st.processingRequests.map (fun rid => SettleEvent.rejected rid "Worker terminated") ++
    st.statisticsRequests.map (fun rid => SettleEvent.rejected rid "Worker terminated"))

/-!
## Resource pools (`cChange.ts` lines 763-811)

Geometries and materials are identified by allocation ids; `push`/`pop`
on the JS arrays is the same last-in-first-out discipline as
cons/head here (most recently returned element at the head).
Disposal (`geometry.dispose()`, `material.dispose()`) is recorded in a
`disposed…` list so that the fate of an over-capacity return is visible.
-/

/-- Identity of one `THREE.BoxGeometry(0.05, 0.1, 0.05)`. -/
abbrev Geometry := Nat

/-- A `THREE.MeshLambertMaterial` with its current color. -/
structure Material where
  id : Nat
  color : ColorSpec
deriving DecidableEq, Repr

/-- `MAX_POOL_SIZE` from `cChange.ts`. -/
def MAX_POOL_SIZE : Nat := 100

/-- The two module-level pools plus allocation counters and disposal logs. -/
structure PoolState where
  geometryPool : List Geometry
  materialPool : List Material
  nextGeometryId : Nat
  nextMaterialId : Nat
  disposedGeometries : List Geometry
  disposedMaterials : List Material
deriving DecidableEq, Repr

/-- Both pools start empty. -/
def initialPools : PoolState := ⟨[], [], 0, 0, [], []⟩

/-- `getGeometry()`: pop from the pool when non-empty, else construct a
new `BoxGeometry`. -/
def getGeometry (ps : PoolState) : Geometry × PoolState :=
  match ps.geometryPool with
  | g :: rest => (g, { ps with geometryPool := rest })
  | [] => (ps.nextGeometryId, { ps with nextGeometryId := ps.nextGeometryId + 1 })

/-- `returnGeometry(geometry)`: push when under `MAX_POOL_SIZE`, else
dispose. -/
def returnGeometry (ps : PoolState) (g : Geometry) : PoolState :=
  if ps.geometryPool.length < MAX_POOL_SIZE then
    { ps with geometryPool := g :: ps.geometryPool }
  else
    { ps with disposedGeometries := g :: ps.disposedGeometries }

/-- `getMaterial(color)`: pop and overwrite the color in place
(`material.color.copy(color)`) when the pool is non-empty, else
construct a new material with that color. -/
def getMaterial (ps : PoolState) (color : ColorSpec) : Material × PoolState :=
  match ps.materialPool with
  | m :: rest => ({ m with color := color }, { ps with materialPool := rest })
  | [] => ({ id := ps.nextMaterialId, color := color },
           { ps with nextMaterialId := ps.nextMaterialId + 1 })

/-- `returnMaterial(material)`: push when under `MAX_POOL_SIZE`, else
dispose. -/
def returnMaterial (ps : PoolState) (m : Material) : PoolState :=
  if ps.materialPool.length < MAX_POOL_SIZE then
    { ps with materialPool := m :: ps.materialPool }
  else
    { ps with disposedMaterials := m :: ps.disposedMaterials }

/-- One get/return operation on the pools. -/
inductive PoolOp where
  | getGeom
  | returnGeom (g : Geometry)
  | getMat (color : ColorSpec)
  | returnMat (m : Material)
deriving DecidableEq, Repr

/-- Apply one pool operation. -/
def poolStep (ps : PoolState) (op : PoolOp) : PoolState :=
  match op with
  | .getGeom => (getGeometry ps).2
  | .returnGeom g => returnGeometry ps g
  | .getMat c => (getMaterial ps c).2
  | .returnMat m => returnMaterial ps m

/-- Run a sequence of pool operations from the initial (empty) pools. -/
def runPoolOps (ops : List PoolOp) : PoolState := ops.foldl poolStep initialPools

/-!
## Scene refresh (`selectYear`, `removeChildren`, `addCoord`,
`renderAnomalies`, `centuryData`)

A `Mesh` records the identity and pooled resources of one marker; the
Cartesian position and rotation set by `addCoord` are functions of the
stored `point` (irrational sines/cosines) and are not re-computed here.
`earthClouds.children` is the `attached` list.
-/

/-- One marker mesh (`new THREE.Mesh(pointOfInterest, material)`), with
a fresh identity per construction. -/
structure Mesh where
  id : Nat
  geometry : Geometry
  material : Material
  point : ClimateDataPoint
  scaleY : ℚ
deriving DecidableEq, Repr

/-- One entry of the loaded dataset: `[decadeLabel, samples]`; the
samples component may be absent (`!data[yearIdx][1]`). -/
structure YearData where
  label : String
  samples : Option (List ℚ)
deriving DecidableEq, Repr

/-- The module-level mutable state of `cChange.ts` that the scene
refresh path touches: `year`, `markers`, `data`, the children of
`earthClouds`, the pools, and a counter giving each new mesh its
identity. -/
structure ViewState where
  year : String
  markers : List ClimateDataPoint
  data : List YearData
  attached : List Mesh
  pools : PoolState
  nextMeshId : Nat
deriving DecidableEq, Repr

/-- `centuryData(year)`: look up the year in `years`; warn and return
`[]` when absent, when `data[yearIdx]` is missing, or when
`data[yearIdx][1]` is missing; otherwise decode the flat samples. -/
def centuryData (data : List YearData) (year : String) : List ClimateDataPoint :=
  match years.findIdx? (fun y => y == year) with
  | none => []
  | some yearIdx =>
      match data.get? yearIdx with
      | none => []
      | some entry =>
          match entry.samples with
          | none => []
          | some yearData => parseFrom yearData 0

/-- `addCoord(latitude, longitude, delta)`: take a pooled geometry,
compute the color, take a pooled material with that color, build a mesh
scaled by `heightScale delta`, and append it to `earthClouds.children`. -/
def addCoord (st : ViewState) (latitude longitude delta : ℚ) : ViewState :=
  let gp := getGeometry st.pools
  let color := colorVal delta
  let mp := getMaterial gp.2 color
  let mesh : Mesh :=
    { id := st.nextMeshId
      geometry := gp.1
      material := mp.1
      point := { lat := latitude, lon := longitude, delta := delta }
      scaleY := heightScale delta }
  { st with
    pools := mp.2
    attached := st.attached ++ [mesh]
    nextMeshId := st.nextMeshId + 1 }

/-- `renderAnomalies()`: filter the current markers to non-zero delta
and add one coordinate mesh per remaining marker. -/
def renderAnomalies (st : ViewState) : ViewState :=
  let nonZeroMarkers := st.markers.filter (fun marker => marker.delta != 0)
  nonZeroMarkers.foldl (fun s marker => addCoord s marker.lat marker.lon marker.delta) st

/-- `removeChildren()`: walk `earthClouds.children` from the last child
to the first, return each child's material then geometry to the pools,
and remove the child. -/
def removeChildren (st : ViewState) : ViewState :=
  let pools := st.attached.reverse.foldl
    (fun ps child => returnGeometry (returnMaterial ps child.material) child.geometry)
    st.pools
  { st with attached := [], pools := pools }

/-- `selectYear(target)` minus the DOM bookkeeping: tear down the
current batch, take the new year from the clicked element's id
(`target.id || target.parentElement?.id || year`; an absent id is the
empty string and falls back to the previous year), recompute the
markers and render them. -/
def selectYear (st : ViewState) (targetId : String) : ViewState :=
  let st1 := removeChildren st
  let newYear := if targetId = "" then st1.year else targetId
  let st2 := { st1 with year := newYear, markers := centuryData st1.data newYear }
  renderAnomalies st2

/-!
## Playback (`onPlayClick`, `cChange.ts` lines 699-744)

Each timeline update reads the eased progress, computes
`targetIndex = Math.floor(progress * years.length)` and, when it
differs from `currentIndex` and is in range, records it as the next
activation (the source then refreshes the scene for
`years[currentIndex]`).  `playRun` folds one `play()` run over the
sequence of progress values delivered by the timeline.
-/

/-- One `onUpdate` callback: returns the new `currentIndex` and the
activated decade index, if any. -/
def playUpdate (currentIndex : ℤ) (progress : ℚ) : ℤ × Option ℤ :=
  let targetIndex : ℤ := ⌊progress * (years.length : ℚ)⌋
  if targetIndex ≠ currentIndex ∧ targetIndex < (years.length : ℤ) then
    (targetIndex, some targetIndex)
  else (currentIndex, none)

/-- The activation indices produced by one run over a progress
sequence, starting from `currentIndex` (0 at the start of `play()`). -/
def playRun : ℤ → List ℚ → List ℤ
  | _, [] => []
  | ci, p :: ps =>
      match playUpdate ci p with
      | (ci', some a) => a :: playRun ci' ps
      | (ci', none) => playRun ci' ps

/-- Structural characterization of the triple walk, used to evaluate
`parseFrom` on concrete inputs: one point per leading complete triple,
nothing for an incomplete tail. -/
def parseTriples : List ℚ → List ClimateDataPoint
  | lat :: lon :: delta :: rest =>
      { lat := lat, lon := lon, delta := delta } :: parseTriples rest
  | _ => []

/-!
## Concrete states used to instantiate the claims
-/

/-- A pool state holding exactly `MAX_POOL_SIZE` pooled geometries. -/
def fullPools : PoolState :=
  { geometryPool := List.range MAX_POOL_SIZE
    materialPool := (List.range MAX_POOL_SIZE).map (fun i => ⟨i, ColorSpec.rgb 1 1 1⟩)
    nextGeometryId := MAX_POOL_SIZE
    nextMaterialId := MAX_POOL_SIZE
    disposedGeometries := []
    disposedMaterials := [] }

/-- A manager with one pending processing request. -/
def onePendingState : ManagerState := ⟨["req_1"], []⟩

/-- A well-formed success response for the pending request of
`onePendingState`. -/
def successResponse : WorkerResponse :=
  { type := "CLIMATE_DATA_PROCESSED"
    requestId := "req_1"
    data := some [{ lat := 10, lon := 20, delta := 1 / 2 }]
    stats := some { count := 1, minDelta := 1 / 2, maxDelta := 1 / 2, avgDelta := 1 / 2, nonZeroCount := 1 }
    error := none }

/-- A response whose `requestId` is pending in neither map of
`onePendingState`. -/
def unknownIdResponse : WorkerResponse :=
  { type := "CLIMATE_DATA_PROCESSED"
    requestId := "req_9"
    data := none
    stats := none
    error := none }

/-- One attached marker mesh of a previous batch. -/
def demoMesh : Mesh :=
  { id := 0
    geometry := 0
    material := { id := 0, color := ColorSpec.rgb 1 1 1 }
    point := { lat := 10, lon := 20, delta := 1 / 2 }
    scaleY := 75 }

/-- A view state showing decade 1910 with one marker attached. -/
def demoState : ViewState :=
  { year := "1910"
    markers := [{ lat := 10, lon := 20, delta := 1 / 2 }]
    data := [{ label := "1910", samples := some [10, 20, 1 / 2, 0, 0, 0] }]
    attached := [demoMesh]
    pools := initialPools
    nextMeshId := 1 }

/-!
## Parser lemmas
-/

/-- The index-based walk from position `i` is the structural walk of the
suffix from `i`. -/
theorem parseFrom_eq_parseTriples_drop (s : List ℚ) :
    ∀ n i, s.length - i ≤ n → parseFrom s i = parseTriples (s.drop i) := by
  intro n
  induction n with
  | zero =>
      intro i h
      rw [parseFrom]
      have hge : ¬ i < s.length := by omega
      have hd : s.drop i = [] := List.drop_eq_nil_of_le (by omega)
      simp [hge, hd, parseTriples]
  | succ n ih =>
      intro i h
      rw [parseFrom]
      by_cases hlt : i < s.length
      · simp only [hlt, dif_pos]
        have hg0 : s.get? i = (s.drop i).get? 0 := by
          rw [List.get?_drop]
          norm_num
        have hg1 : s.get? (i + 1) = (s.drop i).get? 1 := by
          rw [List.get?_drop]
        have hg2 : s.get? (i + 2) = (s.drop i).get? 2 := by
          rw [List.get?_drop]
        have hd3 : s.drop (i + 3) = (s.drop i).drop 3 := by
          rw [List.drop_drop]
        have hlen : (s.drop i).length = s.length - i := List.length_drop i s
        rcases hm : s.drop i with _ | ⟨x, _ | ⟨y, _ | ⟨z, r⟩⟩⟩
        · rw [hm] at hlen
          simp at hlen
          omega
        · rw [hm] at hg0 hg1 hg2
          rw [hg0, hg1, hg2]
          simp only [List.get?]
          rw [ih (i + 3) (by omega), hd3, hm]
          simp [parseTriples]
        · rw [hm] at hg0 hg1 hg2
          rw [hg0, hg1, hg2]
          simp only [List.get?]
          rw [ih (i + 3) (by omega), hd3, hm]
          simp [parseTriples]
        · rw [hm] at hg0 hg1 hg2
          rw [hg0, hg1, hg2]
          simp only [List.get?]
          rw [ih (i + 3) (by omega), hd3, hm]
          simp [parseTriples]
      · have hd : s.drop i = [] := List.drop_eq_nil_of_le (by omega)
        simp [hlt, hd, parseTriples]

/-- `parseFrom s 0` evaluates structurally. -/
theorem parseFrom_zero (s : List ℚ) : parseFrom s 0 = parseTriples s := by
  have := parseFrom_eq_parseTriples_drop s s.length 0 (by omega)
  simpa using this

/-- Each iteration of the `centuryData` loop from index `i` emits one
point per remaining full triple: fuel-indexed induction helper. -/
theorem parseFrom_length_aux (samples : List ℚ) :
    ∀ n i, samples.length - i ≤ n →
      (parseFrom samples i).length = (samples.length - i) / 3 := by
  intro n
  induction n with
  | zero =>
      intro i h
      rw [parseFrom]
      have hge : ¬ i < samples.length := by omega
      simp [hge]
      omega
  | succ n ih =>
      intro i h
      rw [parseFrom]
      by_cases hlt : i < samples.length
      · simp only [hlt, dif_pos]
        have h0 : samples.get? i = some (samples.get ⟨i, hlt⟩) :=
          List.get?_eq_get hlt
        by_cases h1 : i + 1 < samples.length
        · have h1s : samples.get? (i + 1) = some (samples.get ⟨i + 1, h1⟩) :=
            List.get?_eq_get h1
          by_cases h2 : i + 2 < samples.length
          · have h2s : samples.get? (i + 2) = some (samples.get ⟨i + 2, h2⟩) :=
              List.get?_eq_get h2
            rw [h0, h1s, h2s]
            simp only [List.length_cons]
            rw [ih (i + 3) (by omega)]
            omega
          · have h2n : samples.get? (i + 2) = none :=
              List.get?_eq_none.mpr (by omega)
            rw [h0, h1s, h2n]
            rw [ih (i + 3) (by omega)]
            omega
        · have h1n : samples.get? (i + 1) = none :=
            List.get?_eq_none.mpr (by omega)
          rw [h0, h1n]
          rw [ih (i + 3) (by omega)]
          omega
      · simp [hlt]
        omega

/-- The worker-side loop equals the main-thread loop followed by the
non-zero filter, from any start index. -/
theorem processClimateDataFrom_eq_filter (samples : List ℚ) :
    ∀ n i, samples.length - i ≤ n →
      processClimateDataFrom samples i =
        (parseFrom samples i).filter (fun p => p.delta != 0) := by
  intro n
  induction n with
  | zero =>
      intro i h
      rw [processClimateDataFrom, parseFrom]
      have hge : ¬ i < samples.length := by omega
      simp [hge]
  | succ n ih =>
      intro i h
      rw [processClimateDataFrom, parseFrom]
      by_cases hlt : i < samples.length
      · simp only [hlt, dif_pos]
        have h0 : samples.get? i = some (samples.get ⟨i, hlt⟩) :=
          List.get?_eq_get hlt
        by_cases h1 : i + 1 < samples.length
        · have h1s : samples.get? (i + 1) = some (samples.get ⟨i + 1, h1⟩) :=
            List.get?_eq_get h1
          by_cases h2 : i + 2 < samples.length
          · have h2s : samples.get? (i + 2) = some (samples.get ⟨i + 2, h2⟩) :=
              List.get?_eq_get h2
            rw [h0, h1s, h2s]
            by_cases hz : samples.get ⟨i + 2, h2⟩ = 0 <;>
              simp [hz, List.filter_cons, ih (i + 3) (by omega)]
          · have h2n : samples.get? (i + 2) = none :=
              List.get?_eq_none.mpr (by omega)
            rw [h0, h1s, h2n]
            exact ih (i + 3) (by omega)
        · have h1n : samples.get? (i + 1) = none :=
            List.get?_eq_none.mpr (by omega)
          rw [h0, h1n]
          exact ih (i + 3) (by omega)
      · simp [hlt]

/-!
## Pool lemmas
-/

/-- One pool operation preserves both size bounds. -/
theorem poolStep_preserves_bounds (ps : PoolState) (op : PoolOp)
    (hg : ps.geometryPool.length ≤ MAX_POOL_SIZE)
    (hm : ps.materialPool.length ≤ MAX_POOL_SIZE) :
    (poolStep ps op).geometryPool.length ≤ MAX_POOL_SIZE ∧
    (poolStep ps op).materialPool.length ≤ MAX_POOL_SIZE := by
  cases op <;>
    simp only [poolStep, getGeometry, getMaterial, returnGeometry, returnMaterial] <;>
    split <;>
    simp_all <;>
    omega

/-- Folding pool operations preserves both size bounds. -/
theorem foldl_poolStep_bounded (ops : List PoolOp) :
    ∀ ps : PoolState, ps.geometryPool.length ≤ MAX_POOL_SIZE →
      ps.materialPool.length ≤ MAX_POOL_SIZE →
      (ops.foldl poolStep ps).geometryPool.length ≤ MAX_POOL_SIZE ∧
      (ops.foldl poolStep ps).materialPool.length ≤ MAX_POOL_SIZE := by
  induction ops with
  | nil => exact fun ps hg hm => ⟨hg, hm⟩
  | cons op ops ih =>
      intro ps hg hm
      have h := poolStep_preserves_bounds ps op hg hm
      exact ih (poolStep ps op) h.1 h.2

/-!
## Scene refresh lemmas
-/

/-- Adding one coordinate appends exactly one mesh, carrying the
current fresh id. -/
theorem addCoord_attached (st : ViewState) (la lo de : ℚ) :
    (addCoord st la lo de).attached =
      st.attached ++ [{ id := st.nextMeshId
                        geometry := (getGeometry st.pools).1
                        material := (getMaterial (getGeometry st.pools).2 (colorVal de)).1
                        point := { lat := la, lon := lo, delta := de }
                        scaleY := heightScale de }] ∧
    (addCoord st la lo de).nextMeshId = st.nextMeshId + 1 := by
  rw [addCoord]
  exact ⟨rfl, rfl⟩

/-- Rendering a list of points appends one fresh mesh per point: the
attached count grows by the point count, and every attached mesh is
either an old one or has an id at least the old fresh-id counter. -/
theorem foldl_addCoord_spec (ps : List ClimateDataPoint) :
    ∀ st : ViewState,
      ((ps.foldl (fun s marker => addCoord s marker.lat marker.lon marker.delta) st).attached.length
          = st.attached.length + ps.length) ∧
      (∀ mesh ∈ (ps.foldl (fun s marker => addCoord s marker.lat marker.lon marker.delta) st).attached,
          mesh ∈ st.attached ∨ st.nextMeshId ≤ mesh.id) := by
  induction ps with
  | nil =>
      intro st
      exact ⟨by simp, fun mesh hm => Or.inl hm⟩
  | cons p ps ih =>
      intro st
      have h := ih (addCoord st p.lat p.lon p.delta)
      have ha := addCoord_attached st p.lat p.lon p.delta
      constructor
      · rw [List.foldl_cons, h.1, ha.1]
        simp
        omega
      · intro mesh hmesh
        rw [List.foldl_cons] at hmesh
        rcases h.2 mesh hmesh with hin | hge
        · rw [ha.1] at hin
          rcases List.mem_append.mp hin with h1 | h2
          · exact Or.inl h1
          · right
            have : mesh = { id := st.nextMeshId
                            geometry := (getGeometry st.pools).1
                            material := (getMaterial (getGeometry st.pools).2 (colorVal p.delta)).1
                            point := { lat := p.lat, lon := p.lon, delta := p.delta }
                            scaleY := heightScale p.delta } := by
              simpa using h2
            rw [this]
        · right
          rw [ha.2] at hge
          omega

/-- `removeChildren` empties the attached batch and touches neither the
dataset, the year, the markers, nor the mesh-id counter. -/
theorem removeChildren_spec (st : ViewState) :
    (removeChildren st).attached = [] ∧
    (removeChildren st).data = st.data ∧
    (removeChildren st).year = st.year ∧
    (removeChildren st).markers = st.markers ∧
    (removeChildren st).nextMeshId = st.nextMeshId := by
  rw [removeChildren]
  exact ⟨rfl, rfl, rfl, rfl, rfl⟩

/-!
## Playback lemmas
-/

/-- Under monotone progress updates, every activation strictly exceeds
the index the run started from, activations grow strictly along the
run, and all stay below `years.length`. -/
theorem playRun_spec (ps : List ℚ) :
    ∀ ci : ℤ, List.Chain' (· ≤ ·) ps →
      (∀ p ∈ ps, ci ≤ ⌊p * (years.length : ℚ)⌋) →
      List.Chain' (· < ·) (ci :: playRun ci ps) ∧
      ∀ a ∈ playRun ci ps, ci < a ∧ a < (years.length : ℤ) := by
  induction ps with
  | nil =>
      intro ci _ _
      exact ⟨List.chain'_singleton ci, fun a ha => absurd ha (List.not_mem_nil a)⟩
  | cons p ps ih =>
      intro ci hchain hlo
      have hci : ci ≤ ⌊p * (years.length : ℚ)⌋ := hlo p (List.mem_cons_self p ps)
      have hchain' : List.Chain' (· ≤ ·) ps := hchain.tail
      have hple : ∀ q ∈ ps, p ≤ q := by
        have hpw := List.chain'_iff_pairwise.mp hchain
        exact fun q hq => (List.pairwise_cons.mp hpw).1 q hq
      by_cases hcond : ⌊p * (years.length : ℚ)⌋ ≠ ci ∧
          ⌊p * (years.length : ℚ)⌋ < (years.length : ℤ)
      · have hstep : playRun ci (p :: ps) =
            ⌊p * (years.length : ℚ)⌋ :: playRun ⌊p * (years.length : ℚ)⌋ ps := by
          rw [playRun, playUpdate]
          simp only [if_pos hcond]
        have hlt : ci < ⌊p * (years.length : ℚ)⌋ := lt_of_le_of_ne hci (Ne.symm hcond.1)
        have hlo' : ∀ q ∈ ps, ⌊p * (years.length : ℚ)⌋ ≤ ⌊q * (years.length : ℚ)⌋ := by
          intro q hq
          exact Int.floor_le_floor
            (mul_le_mul_of_nonneg_right (hple q hq) (by norm_num [years]))
        have hih := ih ⌊p * (years.length : ℚ)⌋ hchain' hlo'
        rw [hstep]
        constructor
        · rw [List.chain'_cons]
          exact ⟨hlt, hih.1⟩
        · intro a ha
          rcases List.mem_cons.mp ha with rfl | ha'
          · exact ⟨hlt, hcond.2⟩
          · exact ⟨lt_trans hlt (hih.2 a ha').1, (hih.2 a ha').2⟩
      · have hstep : playRun ci (p :: ps) = playRun ci ps := by
          rw [playRun, playUpdate]
          simp only [if_neg hcond]
        rw [hstep]
        exact ih ci hchain' (fun q hq => hlo q (List.mem_cons_of_mem p hq))

/-- A strictly increasing integer list inside `[1, 7]` has at most 7
elements. -/
theorem length_le_of_chain_lt_bounded (l : List ℤ)
    (hchain : List.Chain' (· < ·) l)
    (hmem : ∀ a ∈ l, 1 ≤ a ∧ a ≤ 7) :
    l.length ≤ 7 := by
  have hpw : List.Pairwise (· < ·) l := List.chain'_iff_pairwise.mp hchain
  have hnd : l.Nodup := hpw.imp (fun h => ne_of_lt h)
  have hsub : l.toFinset ⊆ Finset.Icc (1 : ℤ) 7 := by
    intro a ha
    rw [List.mem_toFinset] at ha
    exact Finset.mem_Icc.mpr (hmem a ha)
  have hcard := Finset.card_le_card hsub
  rw [List.toFinset_card_of_nodup hnd] at hcard
  have hicc : (Finset.Icc (1 : ℤ) 7).card = 7 := by
    rw [Int.card_Icc]
    rfl
  omega

/-!
## Claims about the parser and the mapper
-/

/-- C9: for every sample sequence, the parser yields exactly one
`AnomalyPoint` per complete triple, so the parsed length is
`⌊samples.length / 3⌋`; a trailing incomplete triple is skipped
silently and contributes no point. -/
theorem parse_length_eq_div_three (samples : List ℚ) :
    (parseFrom samples 0).length = samples.length / 3 := by
  have := parseFrom_length_aux samples samples.length 0 (by omega)
  simpa using this

/-- C3, counterexample: on the samples `[0, 0, 0]` the worker-side
`processClimateData` does not produce the same points as the
main-thread parser — the main parser retains the zero-delta point, the
worker drops it at parse time. -/
theorem worker_parse_differs_counterexample :
    processClimateData [0, 0, 0] "1910" ≠ parseFrom [0, 0, 0] 0 := by
  rw [processClimateData,
    processClimateDataFrom_eq_filter [0, 0, 0] 3 0 (by simp),
    parseFrom_zero]
  decide

/-- C3, amended: for every samples array and decade label, the
worker-side `processClimateData` produces exactly the main-thread
parse filtered to non-zero delta — zero-delta points are excluded
already at worker parse time, not retained as on the main path. -/
theorem worker_parse_eq_nonzero_filter (samples : List ℚ) (year : String) :
    processClimateData samples year =
      (parseFrom samples 0).filter (fun p => p.delta != 0) := by
  rw [processClimateData]
  exact processClimateDataFrom_eq_filter samples samples.length 0 (by omega)

/-- C5: the color mapper computes exactly the spec's hue/saturation/
lightness values in each sign case, zero maps to pure white RGB, and
the height scale is `max (|delta| * 150) 0.1`, hence always at least
`0.1`. -/
theorem colorVal_heightScale_exact (delta : ℚ) :
    (0 < delta →
      colorVal delta =
        ColorSpec.hsl (2139 / 10000 - delta / (1619 / 1000) * (1 / 2)) 1 (1 / 2)) ∧
    (delta < 0 →
      colorVal delta = ColorSpec.hsl (5111 / 10000 - delta / (1619 / 1000)) 1 (3 / 5)) ∧
    (delta = 0 → colorVal delta = ColorSpec.rgb 1 1 1) ∧
    heightScale delta = max (|delta| * 150) (1 / 10) ∧
    (1 : ℚ) / 10 ≤ heightScale delta := by
  refine ⟨fun h => ?_, fun h => ?_, fun h => ?_, rfl, le_max_right _ _⟩
  · rw [colorVal, if_pos h]
  · rw [colorVal, if_neg (by linarith), if_pos h]
  · subst h
    rw [colorVal]
    norm_num

/-- C5, witness: the mapper evaluated at the spec's example anomalies
`0.5`, `-0.3` and `0`. -/
theorem colorVal_heightScale_exact_witness :
    colorVal (1 / 2) =
      ColorSpec.hsl (2139 / 10000 - (1 / 2) / (1619 / 1000) * (1 / 2)) 1 (1 / 2) ∧
    colorVal (-(3 / 10)) =
      ColorSpec.hsl (5111 / 10000 - (-(3 / 10)) / (1619 / 1000)) 1 (3 / 5) ∧
    colorVal 0 = ColorSpec.rgb 1 1 1 :=
  ⟨(colorVal_heightScale_exact (1 / 2)).1 (by norm_num),
   (colorVal_heightScale_exact (-(3 / 10))).2.1 (by norm_num),
   (colorVal_heightScale_exact 0).2.2.1 rfl⟩

/-!
## Claims about the resource pools and the worker manager
-/

/-- C6: under every sequence of get/return operations from the initial
empty pools, neither pool ever exceeds `MAX_POOL_SIZE`; and a resource
returned to a pool at capacity is disposed immediately, leaving the
pool unchanged. -/
theorem pool_never_exceeds_cap (ops : List PoolOp) :
    ((runPoolOps ops).geometryPool.length ≤ MAX_POOL_SIZE ∧
     (runPoolOps ops).materialPool.length ≤ MAX_POOL_SIZE) ∧
    (∀ ps : PoolState, ∀ g : Geometry,
      ps.geometryPool.length = MAX_POOL_SIZE →
        (returnGeometry ps g).geometryPool = ps.geometryPool ∧
        (returnGeometry ps g).disposedGeometries = g :: ps.disposedGeometries) ∧
    (∀ ps : PoolState, ∀ m : Material,
      ps.materialPool.length = MAX_POOL_SIZE →
        (returnMaterial ps m).materialPool = ps.materialPool ∧
        (returnMaterial ps m).disposedMaterials = m :: ps.disposedMaterials) := by
  refine ⟨foldl_poolStep_bounded ops initialPools (by simp [initialPools]) (by simp [initialPools]),
    ?_, ?_⟩
  · intro ps g h
    rw [returnGeometry, if_neg (by omega)]
    exact ⟨rfl, rfl⟩
  · intro ps m h
    rw [returnMaterial, if_neg (by omega)]
    exact ⟨rfl, rfl⟩

/-- C6, witness: returning a geometry to a pool that already holds
`MAX_POOL_SIZE` geometries leaves the pool as it was and disposes the
returned geometry. -/
theorem pool_never_exceeds_cap_witness :
    (returnGeometry fullPools 100).geometryPool = fullPools.geometryPool ∧
    (returnGeometry fullPools 100).disposedGeometries = 100 :: fullPools.disposedGeometries :=
  (pool_never_exceeds_cap []).2.1 fullPools 100 (by simp [fullPools])

/-- C8: a worker-level error and a call to `terminate()` each reject
every pending request across both maps — one settlement per pending
entry, each pending id rejected — and leave both maps empty. -/
theorem worker_failure_rejects_all (st : ManagerState) (message : String) :
    ((handleWorkerError st message).1.processingRequests = [] ∧
     (handleWorkerError st message).1.statisticsRequests = [] ∧
     (handleWorkerError st message).2.length =
       st.processingRequests.length + st.statisticsRequests.length ∧
     ∀ rid ∈ st.processingRequests ++ st.statisticsRequests,
       SettleEvent.rejected rid ("Worker error: " ++ message) ∈
         (handleWorkerError st message).2) ∧
    ((terminate st).1.processingRequests = [] ∧
     (terminate st).1.statisticsRequests = [] ∧
     (terminate st).2.length =
       st.processingRequests.length + st.statisticsRequests.length ∧
     ∀ rid ∈ st.processingRequests ++ st.statisticsRequests,
       SettleEvent.rejected rid "Worker terminated" ∈ (terminate st).2) := by
  refine ⟨⟨rfl, rfl, by simp [handleWorkerError], ?_⟩, ⟨rfl, rfl, by simp [terminate], ?_⟩⟩ <;>
  · intro rid hrid
    rcases List.mem_append.mp hrid with hp | hs
    · exact List.mem_append_left _ (List.mem_map_of_mem _ hp)
    · exact List.mem_append_right _ (List.mem_map_of_mem _ hs)

/-- C8, witness: a worker error on a manager with one pending request
in each map empties the processing map and rejects the pending
processing request. -/
theorem worker_failure_rejects_all_witness :
    (handleWorkerError ⟨["req_1"], ["req_2"]⟩ "boom").1.processingRequests = [] ∧
    SettleEvent.rejected "req_1" ("Worker error: " ++ "boom") ∈
      (handleWorkerError ⟨["req_1"], ["req_2"]⟩ "boom").2 :=
  ⟨(worker_failure_rejects_all ⟨["req_1"], ["req_2"]⟩ "boom").1.1,
   (worker_failure_rejects_all ⟨["req_1"], ["req_2"]⟩ "boom").1.2.2.2 "req_1" (by decide)⟩

/-- C10: a worker response whose `requestId` is pending in neither map
leaves the manager state unchanged and settles no promise, whatever
the response's `type`. -/
theorem unknown_request_is_noop (st : ManagerState) (msg : WorkerResponse)
    (h1 : msg.requestId ∉ st.processingRequests)
    (h2 : msg.requestId ∉ st.statisticsRequests) :
    handleWorkerMessage st msg = (st, []) := by
  rw [handleWorkerMessage, if_neg (by tauto)]

/-- C10, witness: a response for the unknown id `req_9` on a manager
pending only `req_1` changes nothing and settles nothing. -/
theorem unknown_request_is_noop_witness :
    handleWorkerMessage onePendingState unknownIdResponse = (onePendingState, []) :=
  unknown_request_is_noop onePendingState unknownIdResponse (by decide) (by decide)

/-- C2: evaluating `handleWorkerMessage` at a pending request and a
well-formed `CLIMATE_DATA_PROCESSED` success response for it: the
entry is removed from the maps, but no promise is settled — the
success branch re-reads the entry from the map after deleting it, so
the resolve call can never fire. -/
theorem success_response_settles_nothing :
    handleWorkerMessage onePendingState successResponse = (⟨[], []⟩, []) := by
  decide

/-!
## Claims about the scene refresh
-/

/-- C1, counterexample: activating the unknown decade `1925` is not a
no-op — the previously attached batch is torn down (teardown runs
before the label lookup) and the active year is overwritten with the
unknown label. -/
theorem unknown_decade_not_noop_counterexample :
    (selectYear demoState "1925").attached ≠ demoState.attached ∧
    (selectYear demoState "1925").year ≠ demoState.year := by
  decide

/-- C1, amended: for every label not in the `DecadeIndex`, the lookup
failure is logged and no markers are attached (the parsed set is
empty), but the previous batch is torn down first and the active year
is set to the unknown label: afterwards the attached batch and the
marker list are empty and the year equals the label. -/
theorem unknown_decade_amended (st : ViewState) (label : String)
    (hempty : label ≠ "") (hnotin : label ∉ years) :
    (selectYear st label).attached = [] ∧
    (selectYear st label).markers = [] ∧
    (selectYear st label).year = label := by
  have hfind : years.findIdx? (fun y => y == label) = none := by
    rw [List.findIdx?_eq_none_iff]
    intro y hy
    simp only [beq_eq_false_iff_ne, ne_eq]
    intro h
    exact hnotin (h ▸ hy)
  simp [selectYear, renderAnomalies, removeChildren, centuryData, hfind, hempty]

/-- C1, witness: the amended behavior at the concrete state showing
decade 1910 with one live marker and the unknown label `1925`. -/
theorem unknown_decade_amended_witness :
    (selectYear demoState "1925").attached = [] ∧
    (selectYear demoState "1925").markers = [] ∧
    (selectYear demoState "1925").year = "1925" :=
  unknown_decade_amended demoState "1925" (by decide) (by decide)

/-- C4: for a label in the `DecadeIndex` whose dataset entry has a
sample array, `selectYear` leaves exactly one attached mesh per parsed
point with non-zero delta, and no mesh of the previous batch remains
attached (teardown fully precedes repopulation; new meshes are fresh). -/
theorem activate_decade_renders_nonzero (st : ViewState) (label : String)
    (yearIdx : Nat) (entry : YearData) (samples : List ℚ)
    (hfind : years.findIdx? (fun y => y == label) = some yearIdx)
    (hdata : st.data.get? yearIdx = some entry)
    (hsamples : entry.samples = some samples)
    (hempty : label ≠ "")
    (hids : ∀ mesh ∈ st.attached, mesh.id < st.nextMeshId) :
    (selectYear st label).attached.length =
      ((parseFrom samples 0).filter (fun p => p.delta != 0)).length ∧
    ∀ mesh ∈ st.attached, mesh ∉ (selectYear st label).attached := by
  have hcd : centuryData st.data label = parseFrom samples 0 := by
    rw [centuryData, hfind]
    simp only [hdata, hsamples]
  have hsel : selectYear st label =
      ((parseFrom samples 0).filter (fun p => p.delta != 0)).foldl
        (fun s marker => addCoord s marker.lat marker.lon marker.delta)
        { removeChildren st with year := label, markers := parseFrom samples 0 } := by
    rw [selectYear]
    simp only [if_neg hempty]
    have hdata' : (removeChildren st).data = st.data := rfl
    rw [hdata', hcd, renderAnomalies]
  have hf := foldl_addCoord_spec ((parseFrom samples 0).filter (fun p => p.delta != 0))
    { removeChildren st with year := label, markers := parseFrom samples 0 }
  constructor
  · rw [hsel, hf.1]
    have : ({ removeChildren st with
        year := label, markers := parseFrom samples 0 } : ViewState).attached = [] :=
      (removeChildren_spec st).1
    rw [this]
    simp
  · intro mesh hmesh hmem
    rw [hsel] at hmem
    rcases hf.2 mesh hmem with hin | hge
    · have : ({ removeChildren st with
          year := label, markers := parseFrom samples 0 } : ViewState).attached = [] :=
        (removeChildren_spec st).1
      rw [this] at hin
      exact absurd hin (List.not_mem_nil mesh)
    · have hn : ({ removeChildren st with
          year := label, markers := parseFrom samples 0 } : ViewState).nextMeshId
            = st.nextMeshId :=
        (removeChildren_spec st).2.2.2.2
      rw [hn] at hge
      exact absurd (hids mesh hmesh) (by omega)

/-- C4, witness: activating `1910` on the demo state (previous batch of
one mesh, samples with one non-zero and one zero triple). -/
theorem activate_decade_renders_nonzero_witness :
    (selectYear demoState "1910").attached.length =
      ((parseFrom [10, 20, 1 / 2, 0, 0, 0] 0).filter (fun p => p.delta != 0)).length ∧
    ∀ mesh ∈ demoState.attached, mesh ∉ (selectYear demoState "1910").attached :=
  activate_decade_renders_nonzero demoState "1910" 0
    { label := "1910", samples := some [10, 20, 1 / 2, 0, 0, 0] }
    [10, 20, 1 / 2, 0, 0, 0]
    (by decide) rfl rfl (by decide) (by decide)

/-!
## Claims about playback
-/

/-- C7, counterexample: the monotone progress sequence `[0, 1]` runs
from 0 to 1 but triggers no activation at all (at progress 1 the
target index 8 fails the `< years.length` check), not 7. -/
theorem play_exactly_seven_counterexample :
    List.Chain' (· ≤ ·) [(0 : ℚ), 1] ∧ (∀ p ∈ [(0 : ℚ), 1], 0 ≤ p ∧ p ≤ 1) ∧
    [(0 : ℚ), 1].head? = some 0 ∧ [(0 : ℚ), 1].getLast? = some 1 ∧
    (playRun 0 [(0 : ℚ), 1]).length ≠ 7 := by
  refine ⟨by norm_num [List.chain'_cons], by norm_num, rfl, rfl, ?_⟩
  norm_num [playRun, playUpdate, years]

/-- C7, amended: for every monotone non-decreasing progress sequence
in `[0, 1]`, the activations of one `play()` run are strictly
increasing decade indices in `[1, 7]` — never backward, at most one
per index, hence at most 7 beyond the initial decade; a run whose
progress attains every index (e.g. steps of `1/16` from 0 to 1)
triggers exactly the 7 activations `1..7`. -/
theorem play_activations_strictly_increasing (ps : List ℚ)
    (hmono : List.Chain' (· ≤ ·) ps)
    (hrange : ∀ p ∈ ps, 0 ≤ p ∧ p ≤ 1) :
    List.Chain' (· < ·) ((0 : ℤ) :: playRun 0 ps) ∧
    (∀ a ∈ playRun 0 ps, 1 ≤ a ∧ a ≤ 7) ∧
    (playRun 0 ps).length ≤ 7 ∧
    playRun 0 [0, 1/16, 2/16, 3/16, 4/16, 5/16, 6/16, 7/16, 8/16, 9/16,
      10/16, 11/16, 12/16, 13/16, 14/16, 15/16, 1] = [1, 2, 3, 4, 5, 6, 7] := by
  have hlo : ∀ p ∈ ps, (0 : ℤ) ≤ ⌊p * (years.length : ℚ)⌋ := by
    intro p hp
    exact Int.floor_nonneg.mpr (mul_nonneg (hrange p hp).1 (by norm_num [years]))
  have h := playRun_spec ps 0 hmono hlo
  have h8 : ((years.length : ℤ)) = 8 := by norm_num [years]
  have hmem : ∀ a ∈ playRun 0 ps, 1 ≤ a ∧ a ≤ 7 := by
    intro a ha
    have hb := h.2 a ha
    omega
  refine ⟨h.1, hmem, ?_, ?_⟩
  · exact length_le_of_chain_lt_bounded (playRun 0 ps) h.1.tail hmem
  · norm_num [playRun, playUpdate, years]

/-- C7, witness: the amended statement instantiated at the monotone
two-step run `[0, 1]`. -/
theorem play_activations_strictly_increasing_witness :
    (playRun 0 [(0 : ℚ), 1]).length ≤ 7 :=
  (play_activations_strictly_increasing [(0 : ℚ), 1]
    (by norm_num [List.chain'_cons]) (by norm_num)).2.2.1

end CChange
